import Mathlib

/-
Shallow embedding of the kama-ui widget framework (Python package `kui`)
used to settle the claims C1..C10.

Strings are modelled as `List Char` (Python `str`), dynamically typed
Python values as `PyVal`, and raised exceptions as `Except PyErr`.
Every definition is translated from the files under `src/kui/`; the
source file and line ranges are given in the doc comments.
-/

namespace KuiSpec

/-- Python runtime values that flow through the content-resolution
pipeline: strings, ints (`int(value)` coercion), and opaque non-string
objects such as a QPixmap (`obj`). -/
inductive PyVal where
  | str : List Char → PyVal
  | int : Int → PyVal
  | obj : String → PyVal
deriving DecidableEq, Repr

/-- Python exceptions that the embedded code can raise.  `fuelExhausted`
is a model artifact marking that the evaluation fuel ran out; real
executions correspond to results that are `.ok` or one of the genuine
exceptions. -/
inductive PyErr where
  | typeError : PyErr
  | attributeError : PyErr
  | valueError : PyErr
  | fuelExhausted : PyErr
deriving DecidableEq, Repr

/-- `\w` of Python's `re` module restricted to ASCII: letters, digits
and the underscore. -/
def isWordChar (c : Char) : Bool :=
  c.isAlphanum || c = '_'

/-- Python `str.strip()` (whitespace at both ends removed). -/
def pyStrip (cs : List Char) : List Char :=
  ((cs.dropWhile Char.isWhitespace).reverse.dropWhile Char.isWhitespace).reverse

/-- Python `str.split(sep)` for a one-character separator; like Python it
keeps empty segments and returns `[""]` on the empty string. -/
def splitOnChar (sep : Char) : List Char → List (List Char)
  | [] => [[]]
  | c :: rest =>
    match splitOnChar sep rest with
    | [] => [[]]
    | seg :: segs => if c = sep then [] :: seg :: segs else (c :: seg) :: segs

/-- Recursion core of `pyReplaceAll`; the fuel argument only bounds the
number of steps (each step consumes at least one character, so
`cs.length + 1` units always suffice) and keeps the recursion
structural so that the kernel can evaluate it. -/
def pyReplaceAllGo (pat rep : List Char) : Nat → List Char → List Char
  | 0, _ => []
  | _ + 1, [] => []
  | f + 1, c :: rest =>
    if pat ≠ [] ∧ pat.isPrefixOf (c :: rest) then
      rep ++ pyReplaceAllGo pat rep f ((c :: rest).drop pat.length)
    else
      c :: pyReplaceAllGo pat rep f rest

/-- Python `str.replace(pat, rep)`: every non-overlapping occurrence,
scanned left to right.  The patterns fed to it by the embedded code are
never empty. -/
def pyReplaceAll (cs pat rep : List Char) : List Char :=
  pyReplaceAllGo pat rep (cs.length + 1) cs

/-- Python `str.isdigit()` (ASCII digits; nonempty). -/
def pyIsDigit (cs : List Char) : Bool :=
  decide (cs ≠ []) && cs.all Char.isDigit

/-- Python `str.lower()` (ASCII). -/
def pyLower (cs : List Char) : List Char :=
  cs.map Char.toLower

/-- Parse an all-digit string to a natural number, most significant
digit first (the inverse of `natToChars`). -/
def digitsToNat (cs : List Char) : Nat :=
  cs.foldl (fun a c => 10 * a + (c.toNat - 48)) 0

/-- One decimal digit as a character. -/
def digitChar : Nat → Char
  | 0 => '0' | 1 => '1' | 2 => '2' | 3 => '3' | 4 => '4'
  | 5 => '5' | 6 => '6' | 7 => '7' | 8 => '8' | _ => '9'

/-- Recursion core of `natToChars`, fuel-structural (fuel `n + 1`
always suffices because the argument strictly shrinks under division
by ten). -/
def natToCharsGo : Nat → Nat → List Char
  | 0, _ => []
  | f + 1, n =>
    if n < 10 then [digitChar n] else natToCharsGo f (n / 10) ++ [digitChar (n % 10)]

/-- Python `str(n)` for a natural number (decimal representation, as
produced by the f-strings in the template controller). -/
def natToChars (n : Nat) : List Char :=
  natToCharsGo (n + 1) n

/-- Python rendering of an optional string inside an f-string:
`None` renders as the four characters `None`. -/
def fmtOpt : Option (List Char) → List Char
  | none => "None".data
  | some s => s

/-- Python slicing `s[a:b]` with the usual negative-index and clamping
semantics. -/
def pySlice (cs : List Char) (a b : Int) : List Char :=
  let n : Int := cs.length
  let lo : Int := if a < 0 then max 0 (n + a) else min a n
  let hi : Int := if b < 0 then max 0 (n + b) else min b n
  if lo < hi then (cs.drop lo.toNat).take (hi - lo).toNat else []

/-- Assoc-list lookup, mirroring Python `dict.get`. -/
def dictGet {β : Type} (d : List (List Char × β)) (k : List Char) : Option β :=
  (d.find? (fun e => e.1 = k)).map (·.2)

/-- Assoc-list store, mirroring Python `dict[k] = v` (overwrites an
existing key in place, otherwise appends, preserving insertion order). -/
def dictSet {β : Type} (d : List (List Char × β)) (k : List Char) (v : β) :
    List (List Char × β) :=
  if (d.find? (fun e => e.1 = k)).isSome then
    d.map (fun e => if e.1 = k then (k, v) else e)
  else
    d ++ [(k, v)]

/-! ## Content token grammar — `src/kui/core/resolver.py` -/

/-- A successful match of the token pattern of `resolve_content`
(`src/kui/core/resolver.py:36`), the regex `(\w+)\x7b(.*)\x7d` applied
with `re.search`: `full` is `group(0)`, `name` is `group(1)` (the
maximal `\w+` run immediately before the opening brace), `body` is
`group(2)` (everything up to the LAST closing brace of the string,
because `.*` is greedy). -/
structure TokenMatch where
  full : List Char
  name : List Char
  body : List Char
deriving DecidableEq, Repr

/-- Index of the last occurrence of `c` in `cs`, if any. -/
def lastIdxOf (c : Char) (cs : List Char) : Option Nat :=
  ((cs.enum.filter (fun e => e.2 = c)).getLast?).map (·.1)

/-- Contiguous slice `cs[a:b]` for natural indices (the non-negative
case of Python slicing). -/
def sliceN (cs : List Char) (a b : Nat) : List Char :=
  (cs.drop a).take (b - a)

/-- Scan for the leftmost start of a match of `(\w+)\x7b(.*)\x7d`:
`orig` is the whole string, `k` the index of its last closing brace,
`i` the absolute index of the suffix `s` being examined.  A start
position succeeds exactly when its maximal word-character run is
followed immediately by an opening brace lying strictly before `k`
(backtracking inside `\w+` can never repair a failed start because a
shorter run would have to end at a word character, not at the brace). -/
def findTokenGo (orig : List Char) (k : Nat) : Nat → List Char → Option TokenMatch
  | _, [] => none
  | i, c :: rest =>
    if isWordChar c then
      let run := (c :: rest).takeWhile isWordChar
      let m := i + run.length
      if ((c :: rest).drop run.length).head? = some '\x7b' ∧ m < k then
        some ⟨sliceN orig i (k + 1), run, sliceN orig (m + 1) k⟩
      else findTokenGo orig k (i + 1) rest
    else findTokenGo orig k (i + 1) rest

/-- `re.compile(r"(\w+)\x7b(.*)\x7d").search(content)` from
`resolve_content` (`src/kui/core/resolver.py:36`). -/
def findToken (cs : List Char) : Option TokenMatch :=
  match lastIdxOf '\x7d' cs with
  | none => none
  | some k => findTokenGo cs k 0 cs

/-- A content resolver instance: `resolve(self, value, *args, **kw)`
(`src/kui/core/resolver.py:91`).  Returning `none` models Python
`None`. -/
def ContentResolverFn : Type :=
  PyVal → List PyVal → List (PyVal × PyVal) → Option PyVal

/-- The per-call resolver dictionary passed to `resolve_content`. -/
def ResolverMap : Type := List (List Char × ContentResolverFn)

/-- Python truthiness of the values a resolver can return, used by
`resolver.resolve(...) or ""` (`src/kui/core/resolver.py:74`). -/
def pyTruthy : PyVal → Bool
  | .str s => decide (s ≠ [])
  | .int n => decide (n ≠ 0)
  | .obj _ => true

/-- `resolver.resolve(parameter, *args, **kw) or ""`
(`src/kui/core/resolver.py:74`): a falsy result (Python `None`, `0`,
`""`) is replaced by the empty string. -/
def orEmptyStr (v : Option PyVal) : PyVal :=
  match v with
  | none => .str []
  | some v => if pyTruthy v then v else .str []

/-- Store `kw[key] = value` (`src/kui/core/resolver.py:67`); Python dict
semantics: overwrite in place, else append. -/
def kwInsert (kw : List (PyVal × PyVal)) (k v : PyVal) : List (PyVal × PyVal) :=
  if (kw.find? (fun e => e.1 = k)).isSome then
    kw.map (fun e => if e.1 = k then (k, v) else e)
  else
    kw ++ [(k, v)]

/-- `properties.pop(0)` (`src/kui/core/resolver.py:49`): the primary
parameter is the first comma-segment of the token body (never missing,
since `split` always yields at least one segment). -/
def tokenParam (body : List Char) : List Char :=
  (splitOnChar ',' body).headD []

/-- The remaining comma-segments of the token body after popping the
primary parameter (`src/kui/core/resolver.py:54`). -/
def tokenProps (body : List Char) : List (List Char) :=
  (splitOnChar ',' body).tail

/-- The body of the `for prop in properties` loop of `resolve_content`
(`src/kui/core/resolver.py:54-67`), abstracted over the recursive
resolution call `rc`: resolve `prop_parts[0].strip()` first, append it
as a positional argument when the property has no colon, or resolve
and int-coerce the value when it has exactly one colon (a property
with two or more colons is silently dropped, and `value.isdigit()` on
a non-string resolved value raises `AttributeError`). -/
def resolvePropsStep (rc : PyVal → Except PyErr PyVal)
    (acc : List PyVal × List (PyVal × PyVal)) (prop : List Char) :
    Except PyErr (List PyVal × List (PyVal × PyVal)) :=
  let parts := splitOnChar ':' prop
  match rc (.str (pyStrip (parts.headD []))) with
  | .error e => .error e
  | .ok key =>
    if parts.length = 1 then .ok (acc.1 ++ [key], acc.2)
    else if parts.length = 2 then
      match rc (.str (pyStrip (parts.getD 1 []))) with
      | .error e => .error e
      | .ok value =>
        match value with
        | .str t =>
          if pyIsDigit t then
            .ok (acc.1, kwInsert acc.2 key (.int (digitsToNat t)))
          else .ok (acc.1, kwInsert acc.2 key (.str t))
        | _ => .error .attributeError
    else .ok acc

/-- The whole property-collection loop of `resolve_content`
(`src/kui/core/resolver.py:50-67`), returning the positional args and
the keyword dict. -/
def resolveProps (rc : PyVal → Except PyErr PyVal) (props : List (List Char)) :
    Except PyErr (List PyVal × List (PyVal × PyVal)) :=
  props.foldlM (resolvePropsStep rc) ([], [])

/-- `resolve_content` (`src/kui/core/resolver.py:9-80`).  One unit of
fuel is spent per iteration of the `while True` loop and per recursive
call; all genuine behaviours of the Python function are reached with
sufficient fuel.  Looking up a missing resolver name yields `None` and
the subsequent `resolver.resolve(...)` raises `AttributeError`
(`src/kui/core/resolver.py:70-74`).  A string result is spliced into
the current content in place of the full token text and the loop
continues; a non-string result terminates the loop and is returned as
is (`src/kui/core/resolver.py:76-80`, first lines of the loop). -/
def resolveContent (res : ResolverMap) : Nat → PyVal → Except PyErr PyVal
  | 0, _ => .error .fuelExhausted
  | fuel + 1, content =>
    match content with
    | .str s =>
      match findToken s with
      | none => .ok (.str s)
      | some tok =>
        match resolveContent res fuel (.str (tokenParam tok.body)) with
        | .error e => .error e
        | .ok parameter =>
          match resolveProps (resolveContent res fuel) (tokenProps tok.body) with
          | .error e => .error e
          | .ok ak =>
            match dictGet res (pyLower tok.name ++ "resolver".data) with
            | none => .error .attributeError
            | some resolver =>
              match orEmptyStr (resolver parameter ak.1 ak.2) with
              | .str out => resolveContent res fuel (.str (pyReplaceAll s tok.full out))
              | v => .ok v
    | v => .ok v

/-! ## Style engine — `src/kui/core/service/style.py` -/

/-- `StyleProperty` (`src/kui/core/service/style.py:25-32`). -/
structure StyleProperty where
  name : List Char
  value : List Char
deriving DecidableEq, Repr

/-- A single quote character, used by the synthesized class selectors
and the SQL renderer. -/
def sq : Char := '\''

/-- The selector rewrite performed by `StyleBlock.__init__`
(`src/kui/core/service/style.py:38`):
`re.sub(r"\.([a-zA-Z0-9_-]+)", r"[cls-\1='true']", selector.strip())`.
A dot followed by a nonempty run of class characters is replaced by the
attribute-equality form; any other character is kept. -/
def classChar (c : Char) : Bool :=
  c.isAlphanum || c = '_' || c = '-'

/-- Fuel-structural core of `classSub` (each step consumes at least one
character, so `cs.length + 1` units always suffice). -/
def classSubGo : Nat → List Char → List Char
  | 0, _ => []
  | _ + 1, [] => []
  | f + 1, c :: rest =>
    if c = '.' then
      let run := rest.takeWhile classChar
      if run = [] then c :: classSubGo f rest
      else
        "[cls-".data ++ run ++ ("=".data ++ [sq] ++ "true".data ++ [sq] ++ "]".data) ++
          classSubGo f (rest.drop run.length)
    else c :: classSubGo f rest

/-- The class-selector rewrite of `StyleBlock.__init__` applied to the
already-stripped selector. -/
def classSub (cs : List Char) : List Char :=
  classSubGo (cs.length + 1) cs

/-- `StyleBlock` after construction
(`src/kui/core/service/style.py:35-47`): the selector has been stripped
and class-rewritten, the properties kept as given. -/
structure StyleBlock where
  selector : List Char
  properties : List StyleProperty
deriving DecidableEq, Repr

/-- `StyleBlock(selector, properties)` — applies `selector.strip()` and
the class rewrite (`src/kui/core/service/style.py:38`). -/
def mkStyleBlock (selector : List Char) (props : List (List Char × List Char)) :
    StyleBlock :=
  ⟨classSub (pyStrip selector), props.map (fun p => ⟨p.1, p.2⟩)⟩

/-- The mutable scan state of `StyleBuilder.__read_blocks`
(`src/kui/core/service/style.py:125-195`), one field per local
variable.  Indices are `Int` because several start at `-1`. -/
structure RBState where
  depth : Int
  selectorStart : Int
  contentStart : Int
  propKeyStart : Int
  propKeyEnd : Int
  propValStart : Int
  propFound : Bool
  props : List (List Char × List Char)
  blocks : List (List Char × List Char × List Char × List (List Char × List Char))
deriving Repr

/-- One iteration of the character loop of `__read_blocks`
(`src/kui/core/service/style.py:140-193`), faithfully ordered: the
depth-1 property handling first, then the depth-0 semicolon rule, then
brace tracking with block emission when the depth returns to zero. -/
def rbStep (orig : List Char) (st : RBState) (ic : Int × Char) : RBState :=
  let i := ic.1
  let c := ic.2
  let next := i + 1
  let st :=
    if st.depth = 1 then
      if c = ':' ∧ st.propFound = false then
        { st with propKeyEnd := i, propValStart := next, propFound := true }
      else if c = ';' then
        { st with
            props := st.props ++
              [(pyStrip (pySlice orig st.propKeyStart st.propKeyEnd),
                pyStrip (pySlice orig st.propValStart i))],
            propKeyStart := next, propFound := false }
      else st
    else st
  let st := if st.depth = 0 ∧ c = ';' then { st with selectorStart := next } else st
  if c = '\x7b' then
    let st :=
      if st.depth = 0 then { st with contentStart := i, propKeyStart := next } else st
    { st with depth := st.depth + 1, propFound := false }
  else if c = '\x7d' then
    let st := { st with depth := st.depth - 1 }
    if st.depth = 0 then
      { st with
          blocks := st.blocks ++
            [(pyStrip (pySlice orig st.selectorStart next),
              pyStrip (pySlice orig st.selectorStart st.contentStart),
              pyStrip (pySlice orig (st.contentStart + 1) i),
              st.props)],
          props := [], selectorStart := next }
    else st
  else st

/-- `StyleBuilder.__read_blocks(stylesheet)`
(`src/kui/core/service/style.py:125-195`): returns the list of
`(block, selector, content, properties)` tuples. -/
def readBlocks (cs : List Char) :
    List (List Char × List Char × List Char × List (List Char × List Char)) :=
  let init : RBState :=
    ⟨0, 0, -1, -1, -1, -1, false, [], []⟩
  ((cs.enum.map (fun e => ((e.1 : Int), e.2))).foldl (rbStep cs) init).blocks

/-- `StyleBuilder.__parse_qss(stylesheet, parent_selector)`
(`src/kui/core/service/style.py:113-123`): for every top-level block,
substitute `&` in its selector by the parent selector, emit the
`StyleBlock`, and recurse into the block content with the substituted
(but not class-rewritten) selector as the new parent.  The fuel bounds
the nesting depth; block content is strictly shorter than its
enclosing sheet, so `cs.length + 1` units always suffice. -/
def parseQss : Nat → List Char → List Char → List StyleBlock
  | 0, _, _ => []
  | fuel + 1, stylesheet, parentSelector =>
    (readBlocks stylesheet).foldl
      (fun acc blk =>
        let selector := pyReplaceAll blk.2.1 "&".data parentSelector
        acc ++ [mkStyleBlock selector blk.2.2.2] ++ parseQss fuel blk.2.2.1 selector)
      []

/-- A style-call argument after the literal parsing of
`StyleBuilder.resolve` (`src/kui/core/service/style.py:218-229`):
`int(argument)` when `argument.isdigit()`, a float literal kept
symbolically when `is_float(argument)`, otherwise `argument[1:-1]`
(the quotes stripped). -/
inductive StyleArg where
  | int : Int → StyleArg
  | float : List Char → StyleArg
  | str : List Char → StyleArg
deriving DecidableEq, Repr

/-- `is_float` of the external `kutil.number` helper, modelled as: the
string parses as a Python float literal of the simple forms the style
sheets use (optional sign, digits with one optional dot). -/
def isFloatChars (cs : List Char) : Bool :=
  let body := match cs with
    | '+' :: rest => rest
    | '-' :: rest => rest
    | rest => rest
  match splitOnChar '.' body with
  | [intPart] => pyIsDigit intPart
  | [intPart, fracPart] =>
    (pyIsDigit intPart || intPart = []) && (pyIsDigit fracPart || fracPart = []) &&
      decide (intPart ≠ [] ∨ fracPart ≠ [])
  | _ => false

/-- Literal parsing of one stripped argument token
(`src/kui/core/service/style.py:221-229`). -/
def parseStyleArg (cs : List Char) : StyleArg :=
  if pyIsDigit cs then .int (digitsToNat cs)
  else if isFloatChars cs then .float cs
  else .str (pySlice cs 1 (-1))

/-- A style resolver registered with `StyleBuilder.add_resolver`,
keyed by function name; `resolve(*args)` returns the literal
replacement text. -/
def StyleResolverFn : Type := List StyleArg → List Char

/-- One match of the style-call pattern
`(\w+?(?=\())\((.*?(?=\)))\)` of `StyleBuilder.resolve`
(`src/kui/core/service/style.py:205`): `full` is the whole call text,
`name` the function name, `argsStr` the text between the parentheses. -/
structure StyleCall where
  full : List Char
  name : List Char
  argsStr : List Char
deriving DecidableEq, Repr

/-- Characters between an opening parenthesis and the first closing one;
fails (like the regex, whose `.` cannot cross a newline) when a newline
appears first or no closing parenthesis exists. -/
def argSpan (cs : List Char) : Option (List Char) :=
  match cs with
  | [] => none
  | c :: rest =>
    if c = ')' then some []
    else if c = '\n' then none
    else (argSpan rest).map (fun s => c :: s)

/-- Fuel-structural scan for all non-overlapping matches of the
style-call pattern, left to right (`re.finditer`).  At a given start,
the word run must reach an opening parenthesis and the argument span
must close; otherwise the scan advances one character.  Each step
consumes at least one character, so `cs.length + 1` units of fuel
always suffice. -/
def findCallsGo : Nat → List Char → List StyleCall
  | 0, _ => []
  | _ + 1, [] => []
  | f + 1, c :: rest =>
    if isWordChar c then
      let run := (c :: rest).takeWhile isWordChar
      let afterRun := (c :: rest).drop run.length
      match afterRun with
      | '(' :: afterParen =>
        match argSpan afterParen with
        | some args =>
          ⟨run ++ "(".data ++ args ++ ")".data, run, args⟩ ::
            findCallsGo f (afterParen.drop (args.length + 1))
        | none => findCallsGo f rest
      | _ => findCallsGo f rest
    else findCallsGo f rest

/-- All matches of the style-call pattern in order
(`re.finditer(r"(\w+?(?=\())\((.*?(?=\)))\)", style_string)`,
`src/kui/core/service/style.py:205`). -/
def findCalls (cs : List Char) : List StyleCall :=
  findCallsGo (cs.length + 1) cs

/-- The state threaded through the loop of `StyleBuilder.resolve`:
the evolving `style_string` and the `resolved_values` cache. -/
structure StyleResolveState where
  text : List Char
  resolvedValues : List (List Char)
deriving DecidableEq, Repr

/-- One iteration of the loop of `StyleBuilder.resolve`
(`src/kui/core/service/style.py:205-233`): a call whose function name
has no registered resolver is logged and skipped; a call text already
resolved in this pass is skipped; otherwise the arguments are parsed,
the resolver applied, and every occurrence of the call text replaced. -/
def styleStep (res : List (List Char × StyleResolverFn)) (st : StyleResolveState)
    (call : StyleCall) : StyleResolveState :=
  match dictGet res call.name with
  | none => st
  | some resolver =>
    if call.full ∈ st.resolvedValues then st
    else
      let args := ((splitOnChar ',' call.argsStr).map pyStrip).map parseStyleArg
      let out := resolver args
      ⟨pyReplaceAll st.text call.full out, st.resolvedValues ++ [call.full]⟩

/-- `StyleBuilder.resolve(style_string)`
(`src/kui/core/service/style.py:197-235`).  The matches are taken from
the original string (Python's `finditer` snapshot) while replacements
accumulate on the evolving string. -/
def styleResolve (res : List (List Char × StyleResolverFn)) (cs : List Char) :
    List Char :=
  ((findCalls cs).foldl (styleStep res) ⟨cs, []⟩).text

/-! ## Filter engine — `src/kui/core/filter.py` -/

/-- `LogicOperand` (`src/kui/core/filter.py:6-34`). -/
inductive LogicOperand where
  | OR : LogicOperand
  | AND : LogicOperand
deriving DecidableEq, Repr

/-- `LogicOperand.symbol`. -/
def LogicOperand.symbol : LogicOperand → List Char
  | .OR => "OR".data
  | .AND => "AND".data

/-- `FilterOperand` (`src/kui/core/filter.py:37-80`) with its
`(symbol, requires_list)` pairs. -/
inductive FilterOperand where
  | EQ | IN | LT | GT | LE | GE | NE
deriving DecidableEq, Repr

/-- `FilterOperand.symbol`. -/
def FilterOperand.symbol : FilterOperand → List Char
  | .EQ => "=".data
  | .IN => "IN".data
  | .LT => "<".data
  | .GT => ">".data
  | .LE => "<=".data
  | .GE => ">=".data
  | .NE => "!=".data

/-- `FilterOperand.requires_list`. -/
def FilterOperand.requiresList : FilterOperand → Bool
  | .IN => true
  | _ => false

/-- A scalar criterion value (`Union[str, int, float]` per the
annotations in `src/kui/core/filter.py`; the float case is not used by
any claim). -/
inductive FScalar where
  | str : List Char → FScalar
  | int : Int → FScalar
deriving DecidableEq, Repr

/-- A criterion value: a scalar or a (flat) list of scalars, the shapes
the filter builder receives from `equals`/`among`. -/
inductive FVal where
  | scalar : FScalar → FVal
  | list : List FScalar → FVal
deriving DecidableEq, Repr

/-- `FilterCriterion` (`src/kui/core/filter.py:83-121`). -/
structure FilterCriterion where
  field : List Char
  operand : FilterOperand
  value : FVal
deriving DecidableEq, Repr

/-- Python `", ".join(formatted_values)`
(`src/kui/core/filter.py:144`): raises `TypeError` as soon as a
non-string item is encountered. -/
def pyJoin (sep : List Char) : List FScalar → Except PyErr (List Char)
  | [] => .ok []
  | [.str s] => .ok s
  | .str s :: x :: rest =>
    match pyJoin sep (x :: rest) with
    | .error e => .error e
    | .ok t => .ok (s ++ sep ++ t)
  | _ => .error .typeError

/-- `FilterCriterion.to_sql` (`src/kui/core/filter.py:123-149`).
When the operand requires a list, `values = self.value` iterates the
stored value (list elements; a string iterates its characters; an int
is not iterable and raises `TypeError`).  String items are quoted, all
items are then joined with `", "`, which raises `TypeError` on any
non-string item (ints are appended unconverted). -/
def FilterCriterion.toSql (c : FilterCriterion) : Except PyErr (List Char) :=
  let valuesE : Except PyErr (List FScalar) :=
    if c.operand.requiresList then
      match c.value with
      | .list vs => .ok vs
      | .scalar (.str s) => .ok (s.map (fun ch => .str [ch]))
      | .scalar (.int _) => .error .typeError
    else
      match c.value with
      | .scalar v => .ok [v]
      -- A list value under a scalar operand survives `[self.value]` but,
      -- being a non-string item, raises `TypeError` inside the
      -- `", ".join` below; the exception is surfaced here directly.
      | .list _ => .error .typeError
  match valuesE with
  | .error e => .error e
  | .ok values =>
    let formatted := values.map (fun v =>
      match v with
      | .str s => FScalar.str ([sq] ++ s ++ [sq])
      | v => v)
    match pyJoin ", ".data formatted with
    | .error e => .error e
    | .ok joined =>
      let joined := if c.operand.requiresList then "(".data ++ joined ++ ")".data else joined
      .ok (c.field ++ " ".data ++ c.operand.symbol ++ " ".data ++ joined)

/-- A statement of the query object: criterion or logical operand. -/
inductive FilterStmt where
  | crit : FilterCriterion → FilterStmt
  | logic : LogicOperand → FilterStmt
deriving DecidableEq, Repr

/-- `KamaFilter` (`src/kui/core/filter.py:152-203`). -/
structure KamaFilter where
  query : List FilterStmt
deriving DecidableEq, Repr

/-- `KamaFilter.get(field)` (`src/kui/core/filter.py:167-182`): the
value of the first criterion whose field matches, else `None`. -/
def KamaFilter.get (f : KamaFilter) (field : List Char) : Option FVal :=
  (f.query.filterMap (fun st =>
    match st with
    | .crit c => if c.field = field then some c.value else none
    | .logic _ => none)).head?

/-- `KamaFilter.to_sql` (`src/kui/core/filter.py:184-203`): renders
every statement and joins with spaces; a failing criterion render
propagates its exception. -/
def KamaFilter.toSql (f : KamaFilter) : Except PyErr (List Char) :=
  match (f.query.mapM (fun st =>
    match st with
    | .logic op => Except.ok op.symbol
    | .crit c => c.toSql) : Except PyErr (List (List Char))) with
  | .error e => .error e
  | .ok parts =>
    .ok (match parts with
      | [] => []
      | p :: rest => rest.foldl (fun a q => a ++ " ".data ++ q) p)

/-- `FilterBuilder` (`src/kui/core/filter.py:206-266`): its only state
is the accumulated criteria list. -/
structure FilterBuilder where
  criteria : List FilterStmt
deriving DecidableEq, Repr

/-- `CriteriaBuilder` (`src/kui/core/filter.py:269-332`): the parent
builder plus the field under construction. -/
structure CriteriaBuilder where
  fb : FilterBuilder
  field : List Char
deriving DecidableEq, Repr

/-- `FilterBuilder()` — empty builder. -/
def FilterBuilder.empty : FilterBuilder := ⟨[]⟩

/-- `FilterBuilder.where(field)` (`src/kui/core/filter.py:219-229`). -/
def FilterBuilder.whereField (b : FilterBuilder) (field : List Char) : CriteriaBuilder :=
  ⟨b, field⟩

/-- `FilterBuilder.also(field)` (`src/kui/core/filter.py:231-243`). -/
def FilterBuilder.also (b : FilterBuilder) (field : List Char) : CriteriaBuilder :=
  ⟨⟨b.criteria ++ [.logic .AND]⟩, field⟩

/-- `FilterBuilder.either(field)` (`src/kui/core/filter.py:245-257`). -/
def FilterBuilder.either (b : FilterBuilder) (field : List Char) : CriteriaBuilder :=
  ⟨⟨b.criteria ++ [.logic .OR]⟩, field⟩

/-- `FilterBuilder.build()` (`src/kui/core/filter.py:259-266`). -/
def FilterBuilder.build (b : FilterBuilder) : KamaFilter :=
  ⟨b.criteria⟩

/-- `CriteriaBuilder.add_criterion` (`src/kui/core/filter.py:313-332`). -/
def CriteriaBuilder.addCriterion (cb : CriteriaBuilder) (op : FilterOperand) (v : FVal) :
    FilterBuilder :=
  ⟨cb.fb.criteria ++ [.crit ⟨cb.field, op, v⟩]⟩

/-- `CriteriaBuilder.equals(value)` (`src/kui/core/filter.py:301-311`). -/
def CriteriaBuilder.equals (cb : CriteriaBuilder) (v : FVal) : FilterBuilder :=
  cb.addCriterion .EQ v

/-- `CriteriaBuilder.among(values)` (`src/kui/core/filter.py:289-299`). -/
def CriteriaBuilder.among (cb : CriteriaBuilder) (vs : List FScalar) : FilterBuilder :=
  cb.addCriterion .IN (.list vs)

/-! ## Widget manager and commands — `src/kui/core/manager.py`,
`src/kui/command/disable.py`, `src/kui/command/enable.py` -/

/-- The slice of `WidgetMetadata` (`src/kui/core/metadata.py`) that the
manager-level claims touch.  `parentId` is the stored
`__parent_widget_id`; the live `parent` back-reference is `none` for
widgets freshly produced by a Build command, so `parent_widget_name`
reduces to `f"{section_id}.{parent_widget_id}"`
(`src/kui/core/metadata.py:232-244`). -/
structure WMeta where
  sectionId : List Char
  idv : List Char
  parentId : Option (List Char)
  orderId : Int
  controllerName : Option (List Char)
  disabled : Bool
deriving DecidableEq, Repr

/-- `WidgetMetadata.name` (`src/kui/core/metadata.py:169-176`). -/
def WMeta.name (m : WMeta) : List Char :=
  m.sectionId ++ ".".data ++ m.idv

/-- `WidgetMetadata.parent_widget_name`
(`src/kui/core/metadata.py:232-244`) for a widget whose `parent`
back-reference is not populated. -/
def WMeta.parentName (m : WMeta) : List Char :=
  m.sectionId ++ ".".data ++ fmtOpt m.parentId

/-- One recorded controller-hook call made by
`WidgetManager.invoke_controllers` (`src/kui/core/manager.py:295-311`):
the target method name, the controller it was looked up under, and the
single widget passed as the hook's `widget` argument. -/
structure HookInvocation where
  target : List Char
  controller : List Char
  widgetName : List Char
deriving DecidableEq, Repr

/-- `WidgetManager.invoke_controllers(target, widgets)`
(`src/kui/core/manager.py:295-311`): iterates the widgets one by one,
looks up each widget's controller by name and, when registered, calls
`getattr(controller, target)(widget, widget.metadata.controller_args)`
— one call per widget, each receiving that single widget. -/
def invokeControllers (controllers : List (List Char)) (target : List Char)
    (widgets : List WMeta) : List HookInvocation :=
  widgets.filterMap (fun w =>
    match w.controllerName with
    | none => none
    | some cn => if controllers.contains cn then some ⟨target, cn, w.name⟩ else none)

/-- `WidgetDisableCommand.execute` (`src/kui/command/disable.py:19-35`):
collects the widgets matching the filter, disables each, then hands the
batch to `invoke_controllers("disable", disabled_widgets)`.  Returns
the mutated widget list and the hook invocations. -/
def disableExecute (controllers : List (List Char)) (widgetFilter : WMeta → Bool)
    (ctxWidgets : List WMeta) : List WMeta × List HookInvocation :=
  let matched := ctxWidgets.filter widgetFilter
  (matched.map (fun w => { w with disabled := true }),
   invokeControllers controllers "disable".data matched)

/-- `WidgetEnableCommand.execute` (`src/kui/command/enable.py:19-36`),
symmetric to the disable command. -/
def enableExecute (controllers : List (List Char)) (widgetFilter : WMeta → Bool)
    (ctxWidgets : List WMeta) : List WMeta × List HookInvocation :=
  let matched := ctxWidgets.filter widgetFilter
  (matched.map (fun w => { w with disabled := false }),
   invokeControllers controllers "enable".data matched)

/-- Ordering key used by `sorted(widgets, key=lambda w: w.metadata.order_id)`
(`src/kui/core/manager.py:328`). -/
def orderLe (a b : WMeta) : Prop := a.orderId ≤ b.orderId

instance : DecidableRel orderLe := fun a b => Int.decLe a.orderId b.orderId

instance : IsTotal WMeta orderLe := ⟨fun a b => Int.le_total a.orderId b.orderId⟩

instance : IsTrans WMeta orderLe := ⟨fun _ _ _ h1 h2 => Int.le_trans h1 h2⟩

/-- Python's `sorted` is a stable sort; insertion sort is the stable
sort that is kernel-computable, and stable sorts agree on their
output. -/
def sortByOrder (ws : List WMeta) : List WMeta :=
  List.insertionSort orderLe ws

/-- The state mutated by `WidgetManager.__add_widgets`
(`src/kui/core/manager.py:323-360`): the live registry
(`self.__widgets`, name-keyed) and, for each parent (`none` is the
window root layout), the ordered list of widgets appended to that
parent's layout. -/
structure AddState where
  registry : List (List Char × WMeta)
  layouts : Option (List Char) → List WMeta

/-- Append `w` to the layout bucket of parent `k`. -/
def pushLayout (f : Option (List Char) → List WMeta) (k : Option (List Char))
    (w : WMeta) : Option (List Char) → List WMeta :=
  fun q => if q = k then f q ++ [w] else f q

/-- One iteration of the loop of `__add_widgets`
(`src/kui/core/manager.py:328-358`): a root widget is appended to the
window root layout; otherwise the parent is resolved first in the live
registry, then among the co-added batch; an unresolvable parent logs a
warning and skips the widget (`continue`, so it is never registered);
a resolved widget is appended to the parent's layout and registered
under its qualified name. -/
def addStep (batch : List WMeta) (st : AddState) (w : WMeta) : AddState :=
  match w.parentId with
  | none =>
    ⟨dictSet st.registry w.name w, pushLayout st.layouts none w⟩
  | some _ =>
    let pname := w.parentName
    let parent :=
      match dictGet st.registry pname with
      | some p => some p
      | none => batch.find? (fun x => x.name = pname)
    match parent with
    | none => st
    | some _ =>
      ⟨dictSet st.registry w.name w, pushLayout st.layouts (some pname) w⟩

/-- `WidgetManager.__add_widgets(widgets)`
(`src/kui/core/manager.py:323-360`): processes the widgets in
ascending `order_id` order, then invokes the `"setup"` hook on the
FULL original batch (`self.invoke_controllers("setup", widgets)` at
line 360 receives the unsorted, unfiltered parameter, including any
skipped widgets). -/
def addWidgets (controllers : List (List Char)) (init : AddState)
    (batch : List WMeta) : AddState × List HookInvocation :=
  ((sortByOrder batch).foldl (addStep batch) init,
   invokeControllers controllers "setup".data batch)

/-- The fresh state a build into an empty window starts from: empty
registry (pre-populated entries are allowed via `init`), empty
layouts. -/
def emptyAddState (reg : List (List Char × WMeta)) : AddState :=
  ⟨reg, fun _ => []⟩

/-! ## Template controller — `src/kui/core/controller.py` -/

/-- The slice of `WidgetMetadata` the template-cloning claims touch.
`hasParentRef` models whether the live `parent` back-reference is
populated; `__segment_metadata` (`src/kui/core/controller.py:393`)
populates it exactly for segment roots (pointing at the template
widget itself), and `parentWidgetId` holds the value the
`parent_widget_id` property returns (the parent's id when the
reference is populated, the stored id otherwise,
`src/kui/core/metadata.py:208-220`).  `resolvers` records the data-row
indices whose per-row `TemplateResolver` was attached via
`add_resolver`. -/
structure TMeta where
  originalId : List Char
  idv : List Char
  orderId : Int
  parentWidgetId : Option (List Char)
  hasParentRef : Bool
  resolvers : List Nat
deriving DecidableEq, Repr

/-- The per-node mutation of `TemplateWidgetController.refresh` for the
data row `idx` (`src/kui/core/controller.py:281-292`):
`order_id = widget_count * idx + order_id`,
`id = f"{original_id}__{idx}"`, attach the row resolver, and — only
when the `parent` back-reference is NOT populated —
`parent_widget_id = f"{parent_widget_id}__{idx}"` (a `None` stored id
renders as the text `None` inside the f-string). -/
def cloneNode (widgetCount : Int) (idx : Nat) (m : TMeta) : TMeta :=
  { m with
      orderId := widgetCount * (idx : Int) + m.orderId,
      idv := m.originalId ++ "__".data ++ natToChars idx,
      resolvers := m.resolvers ++ [idx],
      parentWidgetId :=
        if m.hasParentRef then m.parentWidgetId
        else some (fmtOpt m.parentWidgetId ++ "__".data ++ natToChars idx) }

/-- The body segments of a template: each entry pairs a segment root
with the full metadata list of its subtree (the root itself is a
member of its own list, as produced by `__segment_metadata`,
`src/kui/core/controller.py:369-401`). -/
def BodySegments : Type := List (TMeta × List TMeta)

/-- `widget_count = len(metadata) * len(body_segments)`
(`src/kui/core/controller.py:277`). -/
def widgetCount (segments : BodySegments) (group : List TMeta) : Int :=
  (group.length : Int) * (segments.length : Int)

/-- The deep-copied, rewritten per-segment node lists built for data
row `idx` (`src/kui/core/controller.py:266-295`: `deepcopy`, then the
per-node mutation, then `self.manager.build(metadata)` per segment). -/
def cloneRow (segments : BodySegments) (idx : Nat) : List (List TMeta) :=
  segments.map (fun seg => seg.2.map (cloneNode (widgetCount segments seg.2) idx))

/-- All rows built by `refresh` for a dataset of `n` elements
(`for idx, element in enumerate(self.retrieve_data(args))`,
`src/kui/core/controller.py:265`), keyed by the row index. -/
def templateRows (segments : BodySegments) (n : Nat) : List (Nat × List (List TMeta)) :=
  (List.range n).map (fun idx => (idx, cloneRow segments idx))

/-- The cloned body ROOT widgets over all rows: for each row and each
segment, the clone of the segment root (the widget `refresh` then
fetches back via `get_widget(body_section, f"{root.original_id}__{idx}")`,
`src/kui/core/controller.py:296`). -/
def templateRoots (segments : BodySegments) (n : Nat) : List TMeta :=
  (List.range n).flatMap (fun idx =>
    segments.map (fun seg => cloneNode (widgetCount segments seg.2) idx seg.1))

/-! ## Build command call binding — `src/kui/command/build.py`,
`src/kui/core/component.py` -/

/-- The parameter names of `def resolve_content(content, resolvers=None)`
(`src/kui/core/resolver.py:9`). -/
def resolveContentParams : List (List Char) :=
  ["content".data, "resolvers".data]

/-- The keyword names used at the call sites
`resolve_content(meta.content, extra_resolvers=meta.resolvers)`
(`src/kui/command/build.py:83` and `:87`) and
`resolve_content(self.metadata.content, extra_resolvers=self.metadata.resolvers)`
(`src/kui/core/component.py:145` and `:151`). -/
def buildCallKeywords : List (List Char) :=
  ["extra_resolvers".data]

/-- Python call binding for keyword arguments: a function without
`**kwargs` accepts a keyword call only when every keyword name is a
declared parameter name; otherwise the call raises `TypeError` before
the function body runs. -/
def pyKeywordsAccepted (params kwargs : List (List Char)) : Bool :=
  kwargs.all (fun k => params.contains k)

/-- The call `resolve_content(content, extra_resolvers=resolvers)` as
written at the four call sites: it binds its keywords against the
signature of `resolve_content` and only on success would the body run. -/
def callResolveContentExtra (res : ResolverMap) (fuel : Nat) (content : List Char) :
    Except PyErr PyVal :=
  if pyKeywordsAccepted resolveContentParams buildCallKeywords then
    resolveContent res fuel (.str content)
  else .error .typeError

/-- The content/tooltip slice of metadata consumed by
`WidgetBuildCommand._build_widget` (`src/kui/command/build.py:81-87`)
and `KamaComponentMixin.refresh` (`src/kui/core/component.py:144-152`). -/
structure BMeta where
  content : Option (List Char)
  tooltip : Option (List Char)
  localResolvers : ResolverMap

/-- The content and tooltip resolution steps of
`WidgetBuildCommand._build_widget` (`src/kui/command/build.py:81-87`):
when `meta.content` is not `None` the widget's `set_content` receives
the result of the `resolve_content(..., extra_resolvers=...)` call, and
likewise `setToolTip` for the tooltip.  The returned pair holds the
values passed to `set_content` and `setToolTip` (`none` when the
branch was not taken); any exception aborts the whole build of this
widget. -/
def buildWidgetContentSteps (fuel : Nat) (meta : BMeta) :
    Except PyErr (Option PyVal × Option PyVal) :=
  match meta.content with
  | none =>
    (match meta.tooltip with
     | none => .ok (none, none)
     | some t =>
       match callResolveContentExtra meta.localResolvers fuel t with
       | .error e => .error e
       | .ok v => .ok (none, some v))
  | some c =>
    match callResolveContentExtra meta.localResolvers fuel c with
    | .error e => .error e
    | .ok v =>
      match meta.tooltip with
      | none => .ok (some v, none)
      | some t =>
        match callResolveContentExtra meta.localResolvers fuel t with
        | .error e => .error e
        | .ok v2 => .ok (some v, some v2)

/-! ## Concrete fixtures used by the claim theorems and witnesses -/

/-- A resolver registry holding exactly the `DateResolver` of
`src/kui/resolver/date.py` (registered under its lowercase class name
`dateresolver` by `get_core_resolvers`,
`src/kui/resolver/__init__.py:28`), here answering the string `2024`
for the token value `year`. -/
def dateResolvers : ResolverMap :=
  [("dateresolver".data, fun p _ _ =>
    if p = .str "year".data then some (.str "2024".data) else none)]

/-- Two resolvers used to observe nested-token evaluation order: the
inner resolver maps `x` to `y`, the outer maps `y` (and only `y`) to
`z`, so the final result is `z` exactly when the inner token was
resolved before the outer one. -/
def nestedResolvers : ResolverMap :=
  [("aresolver".data, fun p _ _ =>
      if p = .str "x".data then some (.str "y".data) else none),
   ("bresolver".data, fun p _ _ =>
      if p = .str "y".data then some (.str "z".data) else none)]

/-- A style resolver registry with a single `color` resolver. -/
def colorOnlyStyleResolvers : List (List Char × StyleResolverFn) :=
  [("color".data, fun _ => "#fff".data)]

/-- Widgets sharing the controller `c`, used against the enable/disable
batching claim. -/
def w1shared : WMeta :=
  ⟨"s".data, "w1".data, none, 0, some "c".data, false⟩

/-- Second widget sharing the controller `c`. -/
def w2shared : WMeta :=
  ⟨"s".data, "w2".data, none, 1, some "c".data, false⟩

/-- A template-body segment root: its `parent` back-reference was
populated by `__segment_metadata` (it points at the template widget),
so `parent_widget_id` reads through the reference. -/
def tmplRoot : TMeta :=
  ⟨"root".data, "root".data, 0, some "tpl".data, true, []⟩

/-- A non-root template-body node: no `parent` back-reference, its
stored `parent_widget_id` names the segment root. -/
def tmplChild : TMeta :=
  ⟨"child".data, "child".data, 1, some "root".data, false, []⟩

/-- A one-segment template body whose group holds the root and one
child. -/
def tmplSegments : BodySegments :=
  [(tmplRoot, [tmplRoot, tmplChild])]

/-- Root-level widget (no parent) with the larger order id. -/
def wOrderLate : WMeta :=
  ⟨"s".data, "late".data, none, 7, none, false⟩

/-- Root-level widget (no parent) with the smaller order id. -/
def wOrderEarly : WMeta :=
  ⟨"s".data, "early".data, none, 3, none, false⟩

/-- A buildable root widget with a registered controller. -/
def wRootOk : WMeta :=
  ⟨"s".data, "ok".data, none, 0, some "c".data, false⟩

/-- A widget whose declared parent `ghost` exists neither in the live
registry nor in the co-added batch. -/
def wOrphan : WMeta :=
  ⟨"s".data, "orphan".data, some "ghost".data, 1, some "c".data, false⟩

/-- Metadata whose content is a token string, fed to the build
command's content step. -/
def helloMeta : BMeta :=
  ⟨some "hello".data, none, []⟩

/-! ## Helper lemmas -/

theorem digitChar_toNat (d : Nat) (hd : d < 10) : (digitChar d).toNat = 48 + d := by
  interval_cases d <;> rfl

theorem digitChar_isDigit (d : Nat) : (digitChar d).isDigit = true := by
  unfold digitChar
  rcases d with _ | _ | _ | _ | _ | _ | _ | _ | _ | d <;> rfl

theorem digitsToNat_append (xs : List Char) (c : Char) :
    digitsToNat (xs ++ [c]) = 10 * digitsToNat xs + (c.toNat - 48) := by
  unfold digitsToNat
  rw [List.foldl_append]
  rfl

theorem natToCharsGo_roundtrip :
    ∀ f n, n < f → digitsToNat (natToCharsGo f n) = n := by
  intro f
  induction f with
  | zero => intro n hn; omega
  | succ f ih =>
    intro n hn
    show digitsToNat (natToCharsGo (f + 1) n) = n
    rw [natToCharsGo]
    by_cases h10 : n < 10
    · simp only [if_pos h10]
      unfold digitsToNat
      simp only [List.foldl_cons, List.foldl_nil]
      rw [digitChar_toNat n h10]
      omega
    · simp only [if_neg h10]
      rw [digitsToNat_append]
      have hdiv : n / 10 < n := Nat.div_lt_self (by omega) (by omega)
      rw [ih (n / 10) (by omega)]
      rw [digitChar_toNat (n % 10) (Nat.mod_lt _ (by omega))]
      omega

theorem natToChars_roundtrip (n : Nat) : digitsToNat (natToChars n) = n :=
  natToCharsGo_roundtrip (n + 1) n (Nat.lt_succ_self n)

theorem natToChars_inj {m n : Nat} (h : natToChars m = natToChars n) : m = n := by
  have hm := natToChars_roundtrip m
  have hn := natToChars_roundtrip n
  rw [h] at hm
  omega

theorem natToCharsGo_digits :
    ∀ f n c, c ∈ natToCharsGo f n → c.isDigit = true := by
  intro f
  induction f with
  | zero => intro n c hc; simp [natToCharsGo] at hc
  | succ f ih =>
    intro n c hc
    rw [natToCharsGo] at hc
    by_cases h10 : n < 10
    · simp only [if_pos h10, List.mem_singleton] at hc
      subst hc; exact digitChar_isDigit n
    · simp only [if_neg h10, List.mem_append, List.mem_singleton] at hc
      rcases hc with hc | hc
      · exact ih _ _ hc
      · subst hc; exact digitChar_isDigit _

theorem natToChars_digits (n : Nat) : ∀ c ∈ natToChars n, c.isDigit = true :=
  fun c hc => natToCharsGo_digits (n + 1) n c hc

theorem natToChars_ne_nil (n : Nat) : natToChars n ≠ [] := by
  unfold natToChars natToCharsGo
  by_cases h10 : n < 10
  · simp [h10]
  · simp [h10]

theorem takeWhile_all_append (p : Char → Bool) :
    ∀ (xs : List Char) (y : Char) (ys : List Char),
      (∀ x ∈ xs, p x = true) → p y = false →
      (xs ++ y :: ys).takeWhile p = xs := by
  intro xs
  induction xs with
  | nil =>
    intro y ys _ hy
    simp [List.takeWhile, hy]
  | cons x rest ih =>
    intro y ys hall hy
    have hx : p x = true := hall x (by simp)
    simp only [List.cons_append, List.takeWhile_cons, hx, if_true]
    rw [ih y ys (fun a ha => hall a (by simp [ha])) hy]

/-- Two id strings built by the template clone rewrite with different
row indices are different, whatever the original ids were: the maximal
digit suffix of such an id is exactly the decimal row index (it is
preceded by an underscore, which is not a digit). -/
theorem cloneSuffix_inj (a b : List Char) (i j : Nat)
    (h : a ++ "__".data ++ natToChars i = b ++ "__".data ++ natToChars j) : i = j := by
  have hrev := congrArg List.reverse h
  simp only [List.reverse_append] at hrev
  have hi : ((natToChars i).reverse ++ ("__".data.reverse ++ a.reverse)).takeWhile
      Char.isDigit = (natToChars i).reverse := by
    have : "__".data.reverse ++ a.reverse = '_' :: ("_".data ++ a.reverse) := rfl
    rw [this]
    exact takeWhile_all_append Char.isDigit _ '_' _
      (fun x hx => natToChars_digits i x (List.mem_reverse.mp hx)) rfl
  have hj : ((natToChars j).reverse ++ ("__".data.reverse ++ b.reverse)).takeWhile
      Char.isDigit = (natToChars j).reverse := by
    have : "__".data.reverse ++ b.reverse = '_' :: ("_".data ++ b.reverse) := rfl
    rw [this]
    exact takeWhile_all_append Char.isDigit _ '_' _
      (fun x hx => natToChars_digits j x (List.mem_reverse.mp hx)) rfl
  have hsuffix : (natToChars i).reverse = (natToChars j).reverse := by
    rw [← hi, ← hj]
    rw [← List.append_assoc, ← List.append_assoc] at hrev
    rw [List.append_assoc, List.append_assoc] at hrev
    rw [hrev]
  exact natToChars_inj (List.reverse_injective hsuffix)

/-- `(l.filterMap f).length` counts the elements on which `f` fires. -/
theorem length_filterMap_eq_countP {α β : Type} (f : α → Option β) :
    ∀ l : List α, (l.filterMap f).length = l.countP (fun a => (f a).isSome) := by
  intro l
  induction l with
  | nil => rfl
  | cons x rest ih =>
    rw [List.filterMap_cons, List.countP_cons]
    cases hfx : f x with
    | none => simpa [hfx] using ih
    | some b => simpa [hfx] using ih

/-- If the leftmost content token's resolver name is not registered,
`resolve_content` cannot return normally: the `resolvers.get(...)`
lookup yields `None` and `resolver.resolve(...)` raises
`AttributeError` (`src/kui/core/resolver.py:70-74`); any failure of
the recursive sub-resolutions also surfaces as a raised exception. -/
theorem resolveContent_missing_resolver (res : ResolverMap) (fuel : Nat)
    (s : List Char) (tok : TokenMatch)
    (htok : findToken s = some tok)
    (hmiss : dictGet res (pyLower tok.name ++ "resolver".data) = none) :
    ∃ e, resolveContent res (fuel + 1) (.str s) = .error e := by
  rw [resolveContent, htok]
  cases h1 : resolveContent res fuel (.str (tokenParam tok.body)) with
  | error e => exact ⟨e, by simp [h1]⟩
  | ok parameter =>
    cases h2 : resolveProps (resolveContent res fuel) (tokenProps tok.body) with
    | error e => exact ⟨e, by simp [h1, h2]⟩
    | ok ak =>
      refine ⟨.attributeError, ?_⟩
      simp [h1, h2,
        show dictGet res (pyLower tok.name ++ ['r','e','s','o','l','v','e','r']) = none
          from hmiss]

/-! ## Claim C1 -/

/-- Claim C1 (code bug): the claim states that `WidgetBuildCommand`
resolves a non-`None` content (resp. tooltip) string through
`resolve_content` with a per-call lookup in which the widget-local
resolvers supersede the global registry, and applies the result via
`set_content` (resp. `setToolTip`).  The code cannot do this: all four
call sites pass the keyword `extra_resolvers`
(`src/kui/command/build.py:83,87`, `src/kui/core/component.py:145,151`)
but `resolve_content` declares only `content` and `resolvers`
(`src/kui/core/resolver.py:9`), so Python raises
`TypeError: resolve_content() got an unexpected keyword argument`
before the body runs, and neither `set_content` nor `setToolTip` is
ever reached.  This theorem evaluates the embedded build step at any
metadata carrying a content or tooltip string. -/
theorem claim_C1_code_bug (fuel : Nat) (meta : BMeta)
    (h : meta.content ≠ none ∨ meta.tooltip ≠ none) :
    buildWidgetContentSteps fuel meta = .error .typeError := by
  have hcall : ∀ c, callResolveContentExtra meta.localResolvers fuel c =
      .error .typeError := by
    intro c
    rfl
  unfold buildWidgetContentSteps
  cases hc : meta.content with
  | some c => simp [hcall]
  | none =>
    cases ht : meta.tooltip with
    | some t => simp [hcall]
    | none => rw [hc, ht] at h; simp at h

/-- Witness for C1: the failing call is reached on concrete metadata
whose content is the plain string `hello`. -/
theorem claim_C1_code_bug_witness :
    (helloMeta.content ≠ none ∨ helloMeta.tooltip ≠ none) ∧
      buildWidgetContentSteps 5 helloMeta = .error .typeError :=
  ⟨Or.inl (by simp [helloMeta]),
   claim_C1_code_bug 5 helloMeta (Or.inl (by simp [helloMeta]))⟩

/-! ## Claim C2 -/

/-- Claim C2 (counterexample): the claim states that disabling a set of
widgets sharing one controller invokes the `disable` hook exactly once,
with the full matched set passed together.  On the code, two widgets
`w1` and `w2`, both bound to the registered controller `c` and both
matched by an all-pass filter, produce TWO hook invocations — one per
widget, each carrying that single widget
(`WidgetManager.invoke_controllers` iterates
`for widget in widgets: ... method(widget, ...)`,
`src/kui/core/manager.py:304-311`) — not one batched call. -/
theorem claim_C2_counterexample :
    (disableExecute ["c".data] (fun _ => true) [w1shared, w2shared]).2 =
      [⟨"disable".data, "c".data, "s.w1".data⟩,
       ⟨"disable".data, "c".data, "s.w2".data⟩] ∧
    ((disableExecute ["c".data] (fun _ => true) [w1shared, w2shared]).2).length ≠ 1 := by
  exact ⟨rfl, by decide⟩

/-- Claim C2 (amended): `WidgetDisableCommand` (resp.
`WidgetEnableCommand`) invokes the `disable` (resp. `enable`) hook once
PER matched widget whose controller is registered — each invocation
receiving that single widget and its controller args — so the number of
hook invocations equals the number of matched widgets with a registered
controller, not one per distinct controller. -/
theorem claim_C2_amended (controllers : List (List Char)) (wfilter : WMeta → Bool)
    (ws : List WMeta) :
    (disableExecute controllers wfilter ws).2.length =
      (ws.filter wfilter).countP (fun w =>
        match w.controllerName with
        | some cn => controllers.contains cn
        | none => false) ∧
    (enableExecute controllers wfilter ws).2.length =
      (ws.filter wfilter).countP (fun w =>
        match w.controllerName with
        | some cn => controllers.contains cn
        | none => false) := by
  have key : ∀ (t : List Char) (l : List WMeta),
      (invokeControllers controllers t l).length = l.countP (fun w =>
        match w.controllerName with
        | some cn => controllers.contains cn
        | none => false) := by
    intro t l
    unfold invokeControllers
    rw [length_filterMap_eq_countP]
    congr 1
    funext w
    cases hw : w.controllerName with
    | none => simp
    | some cn => by_cases hm : cn ∈ controllers <;> simp [hm]
  exact ⟨key "disable".data (ws.filter wfilter), key "enable".data (ws.filter wfilter)⟩

/-! ## Claim C3 -/

/-- Claim C3 (counterexample): the claim states that
`resolve_content("prefix_date\x7byear\x7d_suffix")` with a registered
Date resolver returning 2024 yields `prefix_2024_suffix`.  On the
code, the token regex `(\w+)\x7b(.*)\x7d` greedily captures the whole
word run before the brace — the underscore is a word character — so
`group(1)` is `prefix_date`, the lookup key is `prefix_dateresolver`,
the registry lookup returns `None`, and `resolver.resolve(...)` raises
`AttributeError` instead of producing any string
(`src/kui/core/resolver.py:36,69-74`). -/
theorem claim_C3_counterexample :
    resolveContent dateResolvers 10 (.str "prefix_date\x7byear\x7d_suffix".data) =
      .error .attributeError := rfl

/-- Claim C3 (amended): in-place token replacement behaves as claimed
only when the literal text adjacent to the token name does not end in a
word character: `resolve_content("prefix-date\x7byear\x7d-suffix")`
with the Date resolver returning the string `2024` yields
`prefix-2024-suffix` (token text replaced in place, surrounding
literals preserved), while the underscore variant of the claim raises
`AttributeError`.  Nested tokens do resolve inner-before-outer: with an
inner resolver mapping `x` to `y` and an outer resolver defined only on
`y`, `b\x7ba\x7bx\x7d\x7d` resolves to `z`, which is possible only if
the inner token was resolved before the outer call. -/
theorem claim_C3_amended :
    resolveContent dateResolvers 10 (.str "prefix-date\x7byear\x7d-suffix".data) =
      .ok (.str "prefix-2024-suffix".data) ∧
    resolveContent nestedResolvers 10 (.str "b\x7ba\x7bx\x7d\x7d".data) =
      .ok (.str "z".data) :=
  ⟨rfl, rfl⟩

/-! ## Claim C4 -/

/-- Claim C4 (code bug): the first half of the claim holds —
`FilterBuilder().where("x").equals(5).build().get("x")` returns `5` —
but the second half does not: compiling
`where("x").among([1,2,3]).build()` to its query-string form does not
produce a string containing `x IN (1, 2, 3)`; it raises `TypeError`,
because `FilterCriterion.to_sql` appends the integer items unconverted
and `", ".join(formatted_values)` rejects non-string items
(`src/kui/core/filter.py:138-144`).  The signature documents
`value (Union[str, int, float])` and `to_sql` promises a string, so the
code contradicts its own documentation; string-valued lists confirm the
intended parenthesized rendering (third conjunct). -/
theorem claim_C4_code_bug :
    ((FilterBuilder.empty.whereField "x".data).equals
        (.scalar (.int 5))).build.get "x".data = some (.scalar (.int 5)) ∧
    ((FilterBuilder.empty.whereField "x".data).among
        [.int 1, .int 2, .int 3]).build.toSql = .error .typeError ∧
    ((FilterBuilder.empty.whereField "x".data).among
        [.str "a".data, .str "b".data]).build.toSql =
      .ok ("x IN (".data ++ [sq] ++ "a".data ++ [sq] ++ ", ".data ++ [sq] ++
        "b".data ++ [sq] ++ ")".data) :=
  ⟨rfl, rfl, rfl⟩

/-! ## Claim C6 -/

/-- Claim C6 (counterexample): the claim states that the template clone
rewrite appends `__\x7bindex\x7d` to `parent_widget_id` for the ROOT
nodes of the clone only, leaving every non-root node's
`parent_widget_id` unchanged.  The code does the opposite: the rewrite
is guarded by `if widget_meta.parent is None`
(`src/kui/core/controller.py:291-292`), and `__segment_metadata`
populates the `parent` back-reference exactly on segment roots
(`src/kui/core/controller.py:393`), so the NON-root clone's
`parent_widget_id` changes (here from `root` to `root__0`) while the
root clone's value stays untouched. -/
theorem claim_C6_counterexample :
    (cloneNode 2 0 tmplChild).parentWidgetId = some "root__0".data ∧
    (cloneNode 2 0 tmplChild).parentWidgetId ≠ tmplChild.parentWidgetId ∧
    (cloneNode 2 0 tmplRoot).parentWidgetId = tmplRoot.parentWidgetId := by
  refine ⟨rfl, ?_, rfl⟩
  decide

/-- Claim C6 (amended): when `TemplateWidgetController.refresh` clones
a body segment for data row `idx`, it rewrites `parent_widget_id`
(appending `__\x7bidx\x7d`) for exactly the cloned nodes whose `parent`
back-reference is NOT populated — the non-root nodes — while the root
nodes of the clone (whose `parent` reference was pointed at the
template widget by `__segment_metadata`) keep their `parent_widget_id`
unchanged: the clone's `parent_widget_id` equals the original's if and
only if the node carries the populated back-reference. -/
theorem claim_C6_amended (wc : Int) (idx : Nat) (m : TMeta) :
    ((cloneNode wc idx m).parentWidgetId = m.parentWidgetId) ↔
      m.hasParentRef = true := by
  constructor
  · intro h
    by_contra href
    have href2 : m.hasParentRef = false := by
      cases hm : m.hasParentRef
      · rfl
      · exact absurd hm href
    unfold cloneNode at h
    simp only [href2, if_false, Bool.false_eq_true] at h
    cases hp : m.parentWidgetId with
    | none => rw [hp] at h; exact Option.noConfusion h
    | some x =>
      rw [hp] at h
      have hx := Option.some.inj h
      have hlen := congrArg List.length hx
      simp only [fmtOpt, List.length_append] at hlen
      have := List.length_pos.mpr (natToChars_ne_nil idx)
      omega
  · intro h
    unfold cloneNode
    simp [h]

/-! ## Claim C7 -/

/-- Claim C7 (counterexample): the claim states that a content string
whose token names an unregistered resolver does not raise and comes
back with the literal token text left in place.  On the code, resolving
`foo\x7bbar\x7d` against an empty registry raises `AttributeError`:
`resolvers.get("fooresolver")` returns `None` and
`resolver.resolve(...)` is attribute access on `None`
(`src/kui/core/resolver.py:70-74`); the literal-in-place result
`.ok (.str "foo\x7bbar\x7d")` is never produced. -/
theorem claim_C7_counterexample :
    resolveContent [] 10 (.str "foo\x7bbar\x7d".data) = .error .attributeError := rfl

/-- Claim C7 (amended): the style half of the claim holds — a
`function(args)` call whose name has no registered style resolver is
logged and skipped by `StyleBuilder.resolve`, leaving the pass state
unchanged and continuing with the remaining calls
(`src/kui/core/service/style.py:209-213`) — but the content half is
inverted: whenever the scanned string contains a token whose resolver
name is not in the per-call registry, `resolve_content` raises
(`AttributeError` on `None`, or a propagated exception from a nested
token) instead of returning the literal text. -/
theorem claim_C7_amended :
    (∀ (res : ResolverMap) (fuel : Nat) (s : List Char) (tok : TokenMatch),
      findToken s = some tok →
      dictGet res (pyLower tok.name ++ "resolver".data) = none →
      ∃ e, resolveContent res (fuel + 1) (.str s) = .error e) ∧
    (∀ (sres : List (List Char × StyleResolverFn)) (st : StyleResolveState)
      (call : StyleCall),
      dictGet sres call.name = none → styleStep sres st call = st) := by
  constructor
  · exact fun res fuel s tok htok hmiss =>
      resolveContent_missing_resolver res fuel s tok htok hmiss
  · intro sres st call hmiss
    unfold styleStep
    rw [hmiss]

/-- Witness for C7 (amended): instantiated at the concrete content
string `foo\x7bbar\x7d` with an empty registry and at a concrete style
pass state with an unregistered `bad(1)` call. -/
theorem claim_C7_amended_witness :
    (∃ e, resolveContent [] 6 (.str "foo\x7bbar\x7d".data) = .error e) ∧
    styleStep [] ⟨"x: bad(1);".data, []⟩ ⟨"bad(1)".data, "bad".data, "1".data⟩ =
      ⟨"x: bad(1);".data, []⟩ :=
  ⟨claim_C7_amended.1 [] 5 "foo\x7bbar\x7d".data
      ⟨"foo\x7bbar\x7d".data, "foo".data, "bar".data⟩ rfl rfl,
   claim_C7_amended.2 [] ⟨"x: bad(1);".data, []⟩
      ⟨"bad(1)".data, "bad".data, "1".data⟩ rfl⟩

/-! ## Claim C9 -/

set_option maxRecDepth 40000 in
/-- Claim C9 (confirmed): parsing the stylesheet text
`.a \x7b color: red; & .b \x7b color: blue; \x7d \x7d` produces
exactly two selector rules: the first with selector
`[cls-a='true']` holding `color: red`, and the second with the
`&`-substituted nested selector `[cls-a='true'] [cls-b='true']`
holding `color: blue` (`StyleBuilder.__parse_qss`,
`StyleBuilder.__read_blocks` and the class rewrite of
`StyleBlock.__init__`, `src/kui/core/service/style.py:35-195`). -/
theorem claim_C9 :
    parseQss 5 ".a \x7b color: red; & .b \x7b color: blue; \x7d \x7d".data "".data =
      [⟨"[cls-a=".data ++ [sq] ++ "true".data ++ [sq] ++ "]".data,
        [⟨"color".data, "red".data⟩]⟩,
       ⟨"[cls-a=".data ++ [sq] ++ "true".data ++ [sq] ++ "] [cls-b=".data ++ [sq] ++
          "true".data ++ [sq] ++ "]".data,
        [⟨"color".data, "blue".data⟩]⟩] := rfl

/-! ## Claim C5 -/

/-- Claim C5 (confirmed): for a dataset of `n` elements and a body
template of `segments.length` root segments,
`TemplateWidgetController.refresh` builds exactly
`n * segments.length` body root widgets; every cloned node's id is
rewritten to `original_id ++ "__" ++ idx` for its row index `idx`
(`src/kui/core/controller.py:283`); and no two cloned nodes from
different rows can share an id, because the maximal digit suffix of a
rewritten id is exactly the decimal row index. -/
theorem claim_C5 (segments : BodySegments) (n : Nat) :
    (templateRoots segments n).length = n * segments.length ∧
    (∀ idx row, (idx, row) ∈ templateRows segments n →
      ∀ g ∈ row, ∀ m ∈ g, m.idv = m.originalId ++ "__".data ++ natToChars idx) ∧
    (∀ i j rowi rowj gi gj mi mj,
      (i, rowi) ∈ templateRows segments n → (j, rowj) ∈ templateRows segments n →
      gi ∈ rowi → mi ∈ gi → gj ∈ rowj → mj ∈ gj → i ≠ j → mi.idv ≠ mj.idv) := by
  have hids : ∀ idx row, (idx, row) ∈ templateRows segments n →
      ∀ g ∈ row, ∀ m ∈ g, m.idv = m.originalId ++ "__".data ++ natToChars idx := by
    intro idx row hrow g hg m hm
    unfold templateRows at hrow
    obtain ⟨a, _, heq⟩ := List.mem_map.mp hrow
    obtain ⟨ha, hrw⟩ : a = idx ∧ cloneRow segments a = row :=
      ⟨congrArg Prod.fst heq, congrArg Prod.snd heq⟩
    subst ha
    subst hrw
    unfold cloneRow at hg
    obtain ⟨seg, _, hgeq⟩ := List.mem_map.mp hg
    subst hgeq
    obtain ⟨m0, _, hmeq⟩ := List.mem_map.mp hm
    subst hmeq
    rfl
  refine ⟨?_, hids, ?_⟩
  · unfold templateRoots
    rw [List.length_flatMap]
    have h : (List.range n).map (List.length ∘ fun idx =>
        segments.map (fun seg => cloneNode (widgetCount segments seg.2) idx seg.1)) =
        List.replicate (List.range n).length segments.length := by
      rw [← List.map_const']
      apply List.map_congr_left
      intro a _
      simp
    rw [h, List.length_range, List.sum_replicate, smul_eq_mul]
  · intro i j rowi rowj gi gj mi mj hri hrj hgi hmi hgj hmj hij
    have h1 := hids i rowi hri gi hgi mi hmi
    have h2 := hids j rowj hrj gj hgj mj hmj
    intro hcontra
    rw [h1, h2] at hcontra
    exact hij (cloneSuffix_inj _ _ i j hcontra)

/-- Witness for C5: a one-segment body (root and child) rendered for a
two-element dataset gives two root widgets, and the row-0 and row-1
root clones have different ids. -/
theorem claim_C5_witness :
    (templateRoots tmplSegments 2).length = 2 * tmplSegments.length ∧
    (cloneNode (widgetCount tmplSegments [tmplRoot, tmplChild]) 0 tmplRoot).idv ≠
      (cloneNode (widgetCount tmplSegments [tmplRoot, tmplChild]) 1 tmplRoot).idv :=
  ⟨(claim_C5 tmplSegments 2).1,
   (claim_C5 tmplSegments 2).2.2 0 1 (cloneRow tmplSegments 0) (cloneRow tmplSegments 1)
     ([tmplRoot, tmplChild].map (cloneNode (widgetCount tmplSegments [tmplRoot, tmplChild]) 0))
     ([tmplRoot, tmplChild].map (cloneNode (widgetCount tmplSegments [tmplRoot, tmplChild]) 1))
     (cloneNode (widgetCount tmplSegments [tmplRoot, tmplChild]) 0 tmplRoot)
     (cloneNode (widgetCount tmplSegments [tmplRoot, tmplChild]) 1 tmplRoot)
     (by decide) (by decide) (by decide) (by decide) (by decide) (by decide) (by decide)⟩

/-! ## Claim C8 -/

/-- Each loop iteration of `__add_widgets` either leaves a given layout
bucket unchanged (skipped widget, or a widget destined for another
parent) or appends exactly the processed widget to it. -/
theorem addStep_layout (batch : List WMeta) (st : AddState) (w : WMeta)
    (p : Option (List Char)) :
    (addStep batch st w).layouts p = st.layouts p ∨
      (addStep batch st w).layouts p = st.layouts p ++ [w] := by
  unfold addStep
  cases hpid : w.parentId with
  | none =>
    simp only [pushLayout]
    by_cases hp : p = none
    · right; simp [hp]
    · left; simp [hp]
  | some pid =>
    cases hreg : dictGet st.registry w.parentName with
    | some q =>
      simp only [hreg, pushLayout]
      by_cases hp : p = some w.parentName
      · right; simp [hp]
      · left; simp [hp]
    | none =>
      cases hfind : batch.find? (fun x => x.name = w.parentName) with
      | none => left; simp [hreg, hfind]
      | some q =>
        simp only [hreg, hfind, pushLayout]
        by_cases hp : p = some w.parentName
        · right; simp [hp]
        · left; simp [hp]

/-- Every layout bucket produced by the `__add_widgets` loop is a
sublist of the processing order appended to its initial content. -/
theorem foldl_addStep_sublist (batch : List WMeta) :
    ∀ (L : List WMeta) (st : AddState) (p : Option (List Char)),
      ∃ s, s.Sublist L ∧ (L.foldl (addStep batch) st).layouts p = st.layouts p ++ s := by
  intro L
  induction L with
  | nil => intro st p; exact ⟨[], List.Sublist.refl _, by simp⟩
  | cons x rest ih =>
    intro st p
    obtain ⟨s, hs, heq⟩ := ih (addStep batch st x) p
    rcases addStep_layout batch st x p with hcase | hcase
    · exact ⟨s, hs.cons x, by rw [List.foldl_cons, heq, hcase]⟩
    · refine ⟨x :: s, hs.cons₂ x, ?_⟩
      rw [List.foldl_cons, heq, hcase, List.append_assoc]
      rfl

/-- Claim C8 (confirmed): for a batch of metadata with pairwise-distinct
`order_id` values, after the manager applies the additions every
parent's layout holds its widgets in strictly ascending `order_id`
order, whatever order the metadata list was passed to Build in (the
theorem quantifies over every input list, hence over every permutation
of any sibling batch): `__add_widgets` iterates
`sorted(widgets, key=lambda w: w.metadata.order_id)`
(`src/kui/core/manager.py:328`), and each layout receives a
subsequence of that sorted order. -/
theorem claim_C8 (controllers : List (List Char)) (initReg : List (List Char × WMeta))
    (batch : List WMeta)
    (hdist : batch.Pairwise (fun a b => a.orderId ≠ b.orderId))
    (p : Option (List Char)) :
    ((addWidgets controllers (emptyAddState initReg) batch).1.layouts p).Pairwise
      (fun a b => a.orderId < b.orderId) := by
  obtain ⟨s, hs, heq⟩ := foldl_addStep_sublist batch (sortByOrder batch)
    (emptyAddState initReg) p
  have hle : (sortByOrder batch).Pairwise orderLe :=
    List.sorted_insertionSort orderLe batch
  have hne : (sortByOrder batch).Pairwise (fun a b => a.orderId ≠ b.orderId) :=
    ((List.perm_insertionSort orderLe batch).pairwise_iff
      (fun h => h.symm)).mpr hdist
  have hlt : (sortByOrder batch).Pairwise (fun a b => a.orderId < b.orderId) := by
    have hand := hle.and hne
    exact hand.imp (fun hab => Int.lt_iff_le_and_ne.mpr hab)
  show ((((sortByOrder batch).foldl (addStep batch) (emptyAddState initReg))).layouts p).Pairwise _
  rw [heq]
  simp only [emptyAddState, List.nil_append]
  exact hlt.sublist hs

/-- Witness for C8: two root widgets passed in descending `order_id`
order still land in the root layout in strictly ascending order. -/
theorem claim_C8_witness :
    ([wOrderLate, wOrderEarly] : List WMeta).Pairwise (fun a b => a.orderId ≠ b.orderId) ∧
    ((addWidgets [] (emptyAddState []) [wOrderLate, wOrderEarly]).1.layouts none).Pairwise
      (fun a b => a.orderId < b.orderId) :=
  ⟨by decide, claim_C8 [] [] [wOrderLate, wOrderEarly] (by decide) none⟩

/-! ## Claim C10 -/

/-- Entries of the Python `dict[k] = v` store are the new pair or an
entry of the original dict. -/
theorem mem_dictSet {β : Type} (d : List (List Char × β)) (k : List Char) (v : β)
    (e : List Char × β) (he : e ∈ dictSet d k v) : e = (k, v) ∨ e ∈ d := by
  unfold dictSet at he
  by_cases hf : (d.find? (fun x => x.1 = k)).isSome
  · rw [if_pos hf] at he
    obtain ⟨a, ha, haeq⟩ := List.mem_map.mp he
    by_cases hak : a.1 = k
    · left; rw [← haeq]; simp [hak]
    · right; rw [← haeq]; simp [hak]; exact ha
  · rw [if_neg hf] at he
    rcases List.mem_append.mp he with h | h
    · right; exact h
    · left; simpa using h

/-- Looking up a key other than the stored one is unchanged by the
overwrite branch of `dictSet` (keys are preserved by the map). -/
theorem find?_map_overwrite {β : Type} (k : List Char) (v : β) (q : List Char)
    (hq : q ≠ k) :
    ∀ d : List (List Char × β),
      Option.map (fun x => x.2)
        (List.find? (fun e => decide (e.1 = q)) (d.map (fun e => if e.1 = k then (k, v) else e))) =
      Option.map (fun x => x.2) (List.find? (fun e => decide (e.1 = q)) d) := by
  intro d
  induction d with
  | nil => rfl
  | cons a rest ih =>
    by_cases hak : a.1 = k
    · have h1 : (decide ((k, v).1 = q)) = false := by
        simp only [decide_eq_false_iff_not]
        exact fun h => hq h.symm
      have h2 : (decide (a.1 = q)) = false := by
        simp only [decide_eq_false_iff_not, hak]
        exact fun h => hq h.symm
      simp only [List.map_cons, if_pos hak, List.find?_cons, h1, h2]
      exact ih
    · simp only [List.map_cons, if_neg hak, List.find?_cons]
      cases hdq : decide (a.1 = q)
      · exact ih
      · rfl

/-- Appending a pair under a different key does not change a lookup. -/
theorem find?_append_miss {β : Type} (k : List Char) (v : β) (q : List Char)
    (hq : q ≠ k) :
    ∀ d : List (List Char × β),
      List.find? (fun e => decide (e.1 = q)) (d ++ [(k, v)]) =
      List.find? (fun e => decide (e.1 = q)) d := by
  intro d
  induction d with
  | nil =>
    have h1 : (decide ((k, v).1 = q)) = false := by
      simp only [decide_eq_false_iff_not]
      exact fun h => hq h.symm
    simp only [List.nil_append, List.find?_cons, h1, List.find?_nil]
  | cons a rest ih =>
    simp only [List.cons_append, List.find?_cons]
    cases hdq : decide (a.1 = q)
    · exact ih
    · rfl

/-- `dict.get` after `dict[k] = v` is unchanged for other keys. -/
theorem dictGet_dictSet_ne {β : Type} (d : List (List Char × β)) (k : List Char)
    (v : β) (q : List Char) (hq : q ≠ k) :
    dictGet (dictSet d k v) q = dictGet d q := by
  unfold dictGet dictSet
  by_cases hf : (d.find? (fun x => x.1 = k)).isSome
  · rw [if_pos hf]
    exact find?_map_overwrite k v q hq d
  · rw [if_neg hf, find?_append_miss k v q hq d]

/-- Claim C10 (confirmed): when `__add_widgets` skips a widget because
its declared parent resolves neither in the live registry nor among the
co-added batch, the widget is never registered into the live registry —
yet it IS part of the batch handed to `invoke_controllers("setup", widgets)`
(`src/kui/core/manager.py:360` passes the full original parameter), so
its registered controller's `setup` hook is still invoked for it. -/
theorem claim_C10 (cs : List (List Char)) (initReg : List (List Char × WMeta))
    (batch : List WMeta) (w : WMeta) (pid : List Char) (cn : List Char)
    (hwmem : w ∈ batch)
    (hpid : w.parentId = some pid)
    (hreg : dictGet initReg w.parentName = none)
    (hfind : batch.find? (fun x => x.name = w.parentName) = none)
    (hcn : w.controllerName = some cn)
    (hcs : cn ∈ cs)
    (hinit : ∀ e ∈ initReg, e.2 ≠ w) :
    (∀ n, (n, w) ∉ (addWidgets cs (emptyAddState initReg) batch).1.registry) ∧
      (⟨"setup".data, cn, w.name⟩ : HookInvocation) ∈
        (addWidgets cs (emptyAddState initReg) batch).2 := by
  have hbatchname : ∀ x ∈ batch, ¬ (x.name = w.parentName) := by
    intro x hx
    have := List.find?_eq_none.mp hfind x hx
    simpa using this
  let P : AddState → Prop := fun st =>
    dictGet st.registry w.parentName = none ∧ ∀ n, (n, w) ∉ st.registry
  have hstep : ∀ (st : AddState) (x : WMeta), x ∈ batch → P st → P (addStep batch st x) := by
    intro st x hx hP
    have hxname : ¬ (x.name = w.parentName) := hbatchname x hx
    have hkey : w.parentName ≠ x.name := fun h => hxname h.symm
    have hinsP : x ≠ w → P ⟨dictSet st.registry x.name x,
        pushLayout st.layouts none x⟩ ∧ P ⟨dictSet st.registry x.name x,
        pushLayout st.layouts (some x.parentName) x⟩ := by
      intro hxw
      have h1 : dictGet (dictSet st.registry x.name x) w.parentName =
          dictGet st.registry w.parentName := dictGet_dictSet_ne _ _ _ _ hkey
      have h2 : ∀ n, (n, w) ∉ dictSet st.registry x.name x := by
        intro n hmem
        rcases mem_dictSet _ _ _ _ hmem with h | h
        · exact hxw (by injection h with _ h2; exact h2.symm)
        · exact hP.2 n h
      exact ⟨⟨by rw [h1, hP.1], h2⟩, ⟨by rw [h1, hP.1], h2⟩⟩
    unfold addStep
    cases hxpid : x.parentId with
    | none =>
      have hxw : x ≠ w := by
        intro h; rw [h] at hxpid; rw [hxpid] at hpid; exact Option.noConfusion hpid
      exact (hinsP hxw).1
    | some xp =>
      cases hregx : dictGet st.registry x.parentName with
      | some q =>
        have hxw : x ≠ w := by
          intro h
          rw [h] at hregx
          rw [hP.1] at hregx
          exact Option.noConfusion hregx
        simp only [hregx]
        exact (hinsP hxw).2
      | none =>
        cases hfindx : batch.find? (fun z => z.name = x.parentName) with
        | none =>
          simp only [hregx, hfindx]
          exact hP
        | some q =>
          have hxw : x ≠ w := by
            intro h
            rw [h] at hfindx
            rw [hfind] at hfindx
            exact Option.noConfusion hfindx
          simp only [hregx, hfindx]
          exact (hinsP hxw).2
  have hfold : ∀ (L : List WMeta), (∀ x ∈ L, x ∈ batch) → ∀ st, P st →
      P (L.foldl (addStep batch) st) := by
    intro L
    induction L with
    | nil => intro _ st hP; exact hP
    | cons x rest ih =>
      intro hall st hP
      exact ih (fun z hz => hall z (by simp [hz])) (addStep batch st x)
        (hstep st x (hall x (by simp)) hP)
  have hinitP : P (emptyAddState initReg) := by
    constructor
    · exact hreg
    · intro n hmem
      exact hinit (n, w) hmem rfl
  have hfinal : P ((sortByOrder batch).foldl (addStep batch) (emptyAddState initReg)) :=
    hfold (sortByOrder batch)
      (fun x hx => (List.perm_insertionSort orderLe batch).mem_iff.mp hx)
      (emptyAddState initReg) hinitP
  constructor
  · exact hfinal.2
  · apply List.mem_filterMap.mpr
    refine ⟨w, hwmem, ?_⟩
    rw [hcn]
    simp [hcs]

/-- Witness for C10: batch of a buildable root widget and an orphan
whose parent `ghost` exists nowhere; the orphan is absent from the
final registry but its `setup` invocation is in the hook log. -/
theorem claim_C10_witness :
    wOrphan ∈ [wRootOk, wOrphan] ∧
    (∀ n, (n, wOrphan) ∉
      (addWidgets ["c".data] (emptyAddState []) [wRootOk, wOrphan]).1.registry) ∧
    (⟨"setup".data, "c".data, wOrphan.name⟩ : HookInvocation) ∈
      (addWidgets ["c".data] (emptyAddState []) [wRootOk, wOrphan]).2 :=
  ⟨by decide,
   (claim_C10 ["c".data] [] [wRootOk, wOrphan] wOrphan "ghost".data "c".data
     (by decide) rfl rfl (by decide) rfl (by decide) (by simp)).1,
   (claim_C10 ["c".data] [] [wRootOk, wOrphan] wOrphan "ghost".data "c".data
     (by decide) rfl rfl (by decide) rfl (by decide) (by simp)).2⟩

end KuiSpec
